import Mathlib

/-!
Shallow embedding of the admin-user provisioning scripts
(`src/server/scripts/create-admin-user.ts` and `src/scripts/create-admin-user.js`)
of the triterm repository.

Strings of the scripts are modelled as lists of characters (`Str`).
JavaScript `toLowerCase` is modelled on the ASCII range, the range all
comparisons of these scripts rely on.  The bcrypt hasher and the account
store are external collaborators: the hasher is a function parameter of
the pipeline and the store is an explicit list of accounts, with the
Prisma `findFirst` equality filter embedded as exact equality on the
stored field (the filter `where: (email | username) = value` compares the
stored column to the given value; only the candidate side is lowercased
by the scripts).  Each invocation of the pipeline also produces a trace
of the effectful stages it performed (lookup, hashing, creation), so that
staging claims are statable.
-/

namespace Triterm

/-- A JavaScript string, modelled as its list of characters. -/
abbrev Str := List Char

/-- ASCII lower-casing of one character, the effect of JavaScript
`toLowerCase` on the characters these scripts compare. -/
def lowerChar (c : Char) : Char :=
  if 65 ≤ c.toNat ∧ c.toNat ≤ 90 then Char.ofNat (c.toNat + 32) else c

/-- `toLowerCase` on a whole string. -/
def lowerStr (s : Str) : Str := s.map lowerChar

/-- The character class `\s` of ECMAScript regular expressions. -/
def isJsSpace (c : Char) : Bool :=
  c = ' ' || c = '\t' || c = '\n' || c = '\r' ||
  c.toNat = 11 || c.toNat = 12 || c.toNat = 0xa0 || c.toNat = 0x1680 ||
  (0x2000 ≤ c.toNat && c.toNat ≤ 0x200a) ||
  c.toNat = 0x2028 || c.toNat = 0x2029 || c.toNat = 0x202f ||
  c.toNat = 0x205f || c.toNat = 0x3000 || c.toNat = 0xfeff

/-- Test of the script's email pattern `[^\s@]+@[^\s@]+\.[^\s@]+`
anchored at both ends: the string splits at its unique `@` into a
non-empty local part and a remainder that carries a dot at an inner
position, all characters being neither whitespace nor `@`. -/
def emailRegexTest (s : Str) : Bool :=
  match s.splitOn '@' with
  | [a, r] =>
      !a.isEmpty && a.all (fun c => !isJsSpace c) &&
      r.all (fun c => !isJsSpace c) && ((r.drop 1).dropLast).contains '.'
  | _ => false

/-- One character of the username class `[a-zA-Z0-9_-]`. -/
def usernameCharOk (c : Char) : Bool :=
  ('a' ≤ c && c ≤ 'z') || ('A' ≤ c && c ≤ 'Z') ||
  ('0' ≤ c && c ≤ '9') || c = '_' || c = '-'

/-- Test of the script's username pattern `[a-zA-Z0-9_-]+` anchored at
both ends. -/
def usernameRegexTest (s : Str) : Bool :=
  !s.isEmpty && s.all usernameCharOk

/-- A character of `[A-Z]`. -/
def isUpperAZ (c : Char) : Bool := 'A' ≤ c && c ≤ 'Z'

/-- A character of `[a-z]`. -/
def isLowerAZ (c : Char) : Bool := 'a' ≤ c && c ≤ 'z'

/-- A character of `[0-9]`. -/
def isDigit09 (c : Char) : Bool := '0' ≤ c && c ≤ '9'

/-- The special-character set of the password rule
(the characters of the class in the scripts' last password check). -/
def specialChars : Str :=
  ['!', '@', '#', '$', '%', '^', '&', '*', '(', ')', ',', '.', '?',
   '\"', ':', Char.ofNat 0x7b, Char.ofNat 0x7d, '|', '<', '>', '_', '-',
   '+', '=', '[', ']', '\\', '/']

/-- Membership in the special-character set. -/
def isSpecial (c : Char) : Bool := specialChars.contains c

/-- The validation failure kinds, in the scripts' order of checking. -/
inductive VError where
  | invalidEmailFormat
  | invalidUsernameFormat
  | invalidUsernameLength
  | passwordTooShort
  | passwordMissingUppercase
  | passwordMissingLowercase
  | passwordMissingDigit
  | passwordMissingSpecialChar
deriving DecidableEq, Repr

/-- The caller-supplied triple awaiting provisioning. -/
structure Candidate where
  email : Str
  username : Str
  secret : Str
deriving DecidableEq, Repr

/-- The validation pipeline shared by both scripts, parameterised by the
minimum secret length (8 in the TS script, 12 in the JS script).  Checks
run in the source order and stop at the first failure. -/
def validate (minLen : Nat) (c : Candidate) : Option VError :=
  if !emailRegexTest c.email then some .invalidEmailFormat
  else if !usernameRegexTest c.username then some .invalidUsernameFormat
  else if decide (c.username.length < 3) || decide (20 < c.username.length) then
    some .invalidUsernameLength
  else if decide (c.secret.length < minLen) then some .passwordTooShort
  else if !c.secret.any isUpperAZ then some .passwordMissingUppercase
  else if !c.secret.any isLowerAZ then some .passwordMissingLowercase
  else if !c.secret.any isDigit09 then some .passwordMissingDigit
  else if !c.secret.any isSpecial then some .passwordMissingSpecialChar
  else none

/-- The rules of the pipeline as an ordered list of
(violation test, failure kind) pairs, following the spec's fixed order. -/
def rules (minLen : Nat) (c : Candidate) : List (Bool × VError) :=
  [(!emailRegexTest c.email, .invalidEmailFormat),
   (!usernameRegexTest c.username, .invalidUsernameFormat),
   (decide (c.username.length < 3) || decide (20 < c.username.length),
     .invalidUsernameLength),
   (decide (c.secret.length < minLen), .passwordTooShort),
   (!c.secret.any isUpperAZ, .passwordMissingUppercase),
   (!c.secret.any isLowerAZ, .passwordMissingLowercase),
   (!c.secret.any isDigit09, .passwordMissingDigit),
   (!c.secret.any isSpecial, .passwordMissingSpecialChar)]

/-- The kind of the first violated rule, `none` when every rule holds. -/
def firstViolation (minLen : Nat) (c : Candidate) : Option VError :=
  ((rules minLen c).find? (fun r => r.1)).map (fun r => r.2)

/-- The account roles. -/
inductive Role where
  | STANDARD
  | ADMIN
deriving DecidableEq, Repr

/-- A persisted account record, as the store holds it. -/
structure Account where
  id : Nat
  email : Str
  username : Str
  credentialHash : Str
  role : Role
  isActive : Bool
  createdAt : Nat
deriving DecidableEq, Repr

/-- The public projection of an account: the fields of the Prisma
`select` clause of the create call.  It has no credential-hash field and
no secret field. -/
structure PublicAccount where
  id : Nat
  email : Str
  username : Str
  role : Role
  isActive : Bool
  createdAt : Nat
deriving DecidableEq, Repr

/-- The `select` projection applied to a created account. -/
def publicOf (a : Account) : PublicAccount :=
  ⟨a.id, a.email, a.username, a.role, a.isActive, a.createdAt⟩

/-- The error taxonomy of one provisioning attempt. -/
inductive PError where
  | validation (e : VError)
  | emailTaken
  | usernameTaken
  | duplicateIdentity
  | storeUnavailable
  | schemaMissing
  | unknownStoreError
deriving DecidableEq, Repr

/-- Whether an error is a uniqueness-conflict kind. -/
def isConflict : PError → Bool
  | .emailTaken | .usernameTaken | .duplicateIdentity => true
  | _ => false

/-- The effectful stages of one invocation, for the trace. -/
inductive Event where
  | validation
  | lookup
  | hashSecret
  | create
deriving DecidableEq, Repr

/-- The store's `findFirst` with the scripts' `OR` filter: the first
account whose stored email equals the lowercased candidate email or
whose stored username equals the lowercased candidate username. -/
def findExisting (store : List Account) (emailL usernameL : Str) :
    Option Account :=
  store.find? (fun u => u.email == emailL || u.username == usernameL)

/-- The conflict classification the scripts run on a found record:
lowercase both sides of each field comparison, email first.  `none`
covers both an empty lookup and the fall-through where the found record
matches neither re-check. -/
def conflictOf (store : List Account) (c : Candidate) : Option PError :=
  match findExisting store (lowerStr c.email) (lowerStr c.username) with
  | some u =>
      if lowerStr u.email = lowerStr c.email then some .emailTaken
      else if lowerStr u.username = lowerStr c.username then
        some .usernameTaken
      else none
  | none => none

/-- The account the create call writes: lowercased email, original-cased
username, the hasher's output, role ADMIN, active, with the id and the
timestamp the store assigns. -/
def newAccount (hasher : Str → Str) (newId now : Nat) (c : Candidate) :
    Account :=
  { id := newId, email := lowerStr c.email, username := c.username,
    credentialHash := hasher c.secret, role := .ADMIN, isActive := true,
    createdAt := now }

/-- One provisioning attempt, `createAdminUser` up to the create call:
validation, the uniqueness lookup with its classification, hashing and
the create, in the source order, stopping at the first error.  Returns
the result, the store after the attempt, and the trace of stages
performed. -/
def provision (minLen : Nat) (hasher : Str → Str) (newId now : Nat)
    (store : List Account) (c : Candidate) :
    Except PError PublicAccount × List Account × List Event :=
  match validate minLen c with
  | some e => (.error (.validation e), store, [.validation])
  | none =>
      match conflictOf store c with
      | some e => (.error e, store, [.validation, .lookup])
      | none =>
          let a := newAccount hasher newId now c
          (.ok (publicOf a), store ++ [a],
           [.validation, .lookup, .hashSecret, .create])

/-- The TS script's `catch` mapping of store error codes. -/
def tsMapStoreError (code : Str) : PError :=
  if code = "P2002".toList then .duplicateIdentity
  else if code = "P1001".toList then .storeUnavailable
  else if code = "P2021".toList then .schemaMissing
  else .unknownStoreError

/-- The JS script's `catch` mapping of store error codes: it has no
`P2021` branch. -/
def jsMapStoreError (code : Str) : PError :=
  if code = "P2002".toList then .duplicateIdentity
  else if code = "P1001".toList then .storeUnavailable
  else .unknownStoreError

/-- The extra failure kind of the JS script's leading
`!email or !username or !password` check. -/
inductive JsVError where
  | missingInput
  | rule (e : VError)
deriving DecidableEq, Repr

/-- The JS script's whole validation: the falsy-argument check, then the
shared pipeline with minimum secret length 12. -/
def jsValidateFull (c : Candidate) : Option JsVError :=
  if c.email.isEmpty || c.username.isEmpty || c.secret.isEmpty then
    some .missingInput
  else (validate 12 c).map .rule

deriving instance DecidableEq for Except

/-- The outcome of the command-line entry point. -/
inductive EntryResult where
  | missingArgs
  | invoked (r : Except PError PublicAccount) (st : List Account)
deriving DecidableEq, Repr

/-- The exit status the scripts map each entry outcome to. -/
def exitCodeOf : EntryResult → Nat
  | .missingArgs => 1
  | .invoked (.error _) _ => 1
  | .invoked (.ok _) _ => 0

/-- The entry point of either script: take the positional arguments
after the interpreter and script name, report a usage error when fewer
than three are given, otherwise run the pipeline on the first three. -/
def entry (minLen : Nat) (hasher : Str → Str) (newId now : Nat)
    (store : List Account) (args : List Str) :
    EntryResult × List Event :=
  if args.length < 3 then (.missingArgs, [])
  else
    match args with
    | e :: u :: p :: _ =>
        let t := provision minLen hasher newId now store ⟨e, u, p⟩
        (.invoked t.1 t.2.1, t.2.2)
    | _ => (.missingArgs, [])

/-- A concrete stand-in hasher for evaluations: prefixes a dollar sign,
so its output never equals its input. -/
def demoHasher (s : Str) : Str := '$' :: s

/-- A secret passing every rule of both scripts. -/
def okSecret : Str := "SecurePass123!".toList

/-- The Prisma error code of a write-time uniqueness violation. -/
def codeP2002 : Str := "P2002".toList

/-- The Prisma error code of an unreachable store. -/
def codeP1001 : Str := "P1001".toList

/-- The Prisma error code of an absent schema. -/
def codeP2021 : Str := "P2021".toList

/-- A store error code outside the handled ones. -/
def codeOther : Str := "P9999".toList

/-- A candidate passing every validation rule. -/
def validCand : Candidate := ⟨"admin@example.com".toList, "admin".toList, okSecret⟩

/-- A candidate whose email fails the shape rule. -/
def badEmailCand : Candidate := ⟨"bad".toList, "admin".toList, okSecret⟩

/-- A stored account colliding with `validCand` on both fields. -/
def acct0 : Account :=
  ⟨0, "admin@example.com".toList, "admin".toList, "h0".toList, .ADMIN, true, 0⟩

/-- First candidate of the duplicate-admin scenario: username `Admin`. -/
def c1CandA : Candidate := ⟨"a@b.c".toList, "Admin".toList, okSecret⟩

/-- Second candidate of the duplicate-admin scenario: username `admin`,
a fresh email. -/
def c1CandB : Candidate := ⟨"x@y.z".toList, "admin".toList, okSecret⟩

/-- The store after the script provisions `c1CandA` on an empty store. -/
def c1Store : List Account := (provision 8 demoHasher 0 0 [] c1CandA).2.1

/-- A store whose first account collides with `c6Cand` on the username
only and whose second account collides on the email only. -/
def c6Store : List Account :=
  [⟨0, "other@x.com".toList, "admin".toList, "h0".toList, .ADMIN, true, 0⟩,
   ⟨1, "admin@x.com".toList, "other".toList, "h1".toList, .ADMIN, true, 0⟩]

/-- A candidate colliding with both accounts of `c6Store`. -/
def c6Cand : Candidate := ⟨"admin@x.com".toList, "admin".toList, okSecret⟩

/-- A valid candidate whose secret has exactly 12 characters. -/
def c8Cand : Candidate := ⟨"a@b.c".toList, "abc".toList, "Aa1!aaaaaaaa".toList⟩

/-- A two-element argument vector. -/
def twoArgs : List Str := ["a@b.c".toList, "abc".toList]

end Triterm
namespace Triterm

/-- Lower-casing a character in the uppercase range lands on a
character whose code is the shifted one. -/
theorem toNat_ofNat_shift (n : Nat) (h1 : 65 ≤ n) (h2 : n ≤ 90) :
    (Char.ofNat (n + 32)).toNat = n + 32 := by
  interval_cases n <;> decide

/-- ASCII lower-casing is idempotent on characters. -/
theorem lowerChar_idem (c : Char) : lowerChar (lowerChar c) = lowerChar c := by
  unfold lowerChar
  by_cases h : 65 ≤ c.toNat ∧ c.toNat ≤ 90
  · rw [if_pos h, if_neg]
    rw [toNat_ofNat_shift c.toNat h.1 h.2]
    omega
  · rw [if_neg h, if_neg h]

/-- ASCII lower-casing is idempotent on strings. -/
theorem lowerStr_idem (s : Str) : lowerStr (lowerStr s) = lowerStr s := by
  unfold lowerStr
  rw [List.map_map]
  exact List.map_congr_left (fun a _ => lowerChar_idem a)

/-- A record returned by the lookup satisfies the filter it was
selected by. -/
theorem findExisting_matches (store : List Account) (eL uL : Str) (u : Account)
    (h : findExisting store eL uL = some u) : u.email = eL ∨ u.username = uL := by
  have hp := List.find?_some h
  simpa using hp

/-- C2: the validation checks run in the fixed order email shape,
username charset, username length, secret minimum length, uppercase,
lowercase, digit, special character, and short-circuit: the result is
the kind of the first violated rule, and acceptance when no rule is
violated. -/
theorem C2_validation_order (m : Nat) (c : Candidate) :
    validate m c = firstViolation m c := by
  cases h1 : (!emailRegexTest c.email) <;>
  cases h2 : (!usernameRegexTest c.username) <;>
  cases h3 : (decide (c.username.length < 3) || decide (20 < c.username.length)) <;>
  cases h4 : decide (c.secret.length < m) <;>
  cases h5 : (!c.secret.any isUpperAZ) <;>
  cases h6 : (!c.secret.any isLowerAZ) <;>
  cases h7 : (!c.secret.any isDigit09) <;>
  cases h8 : (!c.secret.any isSpecial) <;>
  simp [validate, firstViolation, rules, List.find?, h1, h2, h3, h4, h5, h6, h7, h8]

/-- C3: a stage never runs unless every earlier stage succeeded: a
candidate failing validation gets that rule's error with an unchanged
store and a trace holding no lookup, no hashing and no creation; a
candidate passing validation but classified as a conflict gets the
conflict with an unchanged store and a trace holding no hashing and no
creation. -/
theorem C3_stage_gating (minLen : Nat) (hasher : Str → Str) (newId now : Nat)
    (store : List Account) (c : Candidate) :
    (∀ e, validate minLen c = some e →
       provision minLen hasher newId now store c =
         (.error (.validation e), store, [.validation]) ∧
       Event.lookup ∉ [Event.validation] ∧
       Event.hashSecret ∉ [Event.validation] ∧
       Event.create ∉ [Event.validation]) ∧
    (∀ e, validate minLen c = none → conflictOf store c = some e →
       provision minLen hasher newId now store c =
         (.error e, store, [.validation, .lookup]) ∧
       Event.hashSecret ∉ [Event.validation, Event.lookup] ∧
       Event.create ∉ [Event.validation, Event.lookup]) := by
  constructor
  · intro e hv
    refine ⟨by simp [provision, hv], by decide, by decide, by decide⟩
  · intro e hv hc
    refine ⟨by simp [provision, hv, hc], by decide, by decide⟩

/-- C3 witness: a malformed email is rejected with a validation-only
trace, and a both-fields collision is rejected with a lookup trace. -/
theorem C3_stage_gating_witness :
    provision 8 demoHasher 1 0 [] badEmailCand =
      (.error (.validation .invalidEmailFormat), [], [.validation]) ∧
    provision 8 demoHasher 1 0 [acct0] validCand =
      (.error .emailTaken, [acct0], [.validation, .lookup]) :=
  ⟨((C3_stage_gating 8 demoHasher 1 0 [] badEmailCand).1
      .invalidEmailFormat (by decide)).1,
   ((C3_stage_gating 8 demoHasher 1 0 [acct0] validCand).2
      .emailTaken (by decide) (by decide)).1⟩

end Triterm
namespace Triterm

/-- C4: a valid, non-conflicting candidate is provisioned: the result is
the public projection of the created account (the projection carries
only id, email, username, role, isActive and createdAt; `PublicAccount`
has no credential-hash field and no secret field), the account has role
ADMIN and is active, and — for a hasher whose output differs from its
input, as a salted hash's does — the stored credential hash differs from
the plaintext secret. -/
theorem C4_success_shape (minLen : Nat) (hasher : Str → Str) (newId now : Nat)
    (store : List Account) (c : Candidate)
    (hv : validate minLen c = none) (hc : conflictOf store c = none)
    (hh : hasher c.secret ≠ c.secret) :
    (provision minLen hasher newId now store c).1 =
      .ok (publicOf (newAccount hasher newId now c)) ∧
    (newAccount hasher newId now c).role = .ADMIN ∧
    (newAccount hasher newId now c).isActive = true ∧
    (newAccount hasher newId now c).credentialHash ≠ c.secret ∧
    publicOf (newAccount hasher newId now c) =
      ⟨newId, lowerStr c.email, c.username, .ADMIN, true, now⟩ := by
  refine ⟨by simp [provision, hv, hc], rfl, rfl, ?_, rfl⟩
  simpa [newAccount] using hh

/-- C4 witness: the valid candidate on an empty store. -/
theorem C4_success_shape_witness :
    (provision 8 demoHasher 1 0 [] validCand).1 =
      .ok (publicOf (newAccount demoHasher 1 0 validCand)) ∧
    (newAccount demoHasher 1 0 validCand).role = .ADMIN ∧
    (newAccount demoHasher 1 0 validCand).isActive = true ∧
    (newAccount demoHasher 1 0 validCand).credentialHash ≠ validCand.secret ∧
    publicOf (newAccount demoHasher 1 0 validCand) =
      ⟨1, lowerStr validCand.email, validCand.username, .ADMIN, true, 0⟩ :=
  C4_success_shape 8 demoHasher 1 0 [] validCand
    (by decide) (by decide) (by decide)

/-- C5: every successful provisioning stores and returns the lowercased
candidate email and the candidate username with its original casing. -/
theorem C5_normalization (minLen : Nat) (hasher : Str → Str) (newId now : Nat)
    (store : List Account) (c : Candidate) (p : PublicAccount)
    (hp : (provision minLen hasher newId now store c).1 = .ok p) :
    p.email = lowerStr c.email ∧ p.username = c.username ∧
    (provision minLen hasher newId now store c).2.1 =
      store ++ [newAccount hasher newId now c] ∧
    (newAccount hasher newId now c).email = lowerStr c.email ∧
    (newAccount hasher newId now c).username = c.username := by
  cases hv : validate minLen c with
  | some e => simp [provision, hv] at hp
  | none =>
    cases hc : conflictOf store c with
    | some e => simp [provision, hv, hc] at hp
    | none =>
      have hps : p = publicOf (newAccount hasher newId now c) := by
        have := hp
        simp [provision, hv, hc] at this
        exact this.symm
      refine ⟨by rw [hps]; rfl, by rw [hps]; rfl, by simp [provision, hv, hc], rfl, rfl⟩

/-- C5 witness: the valid candidate on an empty store. -/
theorem C5_normalization_witness :
    (publicOf (newAccount demoHasher 1 0 validCand)).email =
      lowerStr validCand.email ∧
    (publicOf (newAccount demoHasher 1 0 validCand)).username =
      validCand.username ∧
    (provision 8 demoHasher 1 0 [] validCand).2.1 =
      [] ++ [newAccount demoHasher 1 0 validCand] ∧
    (newAccount demoHasher 1 0 validCand).email = lowerStr validCand.email ∧
    (newAccount demoHasher 1 0 validCand).username = validCand.username :=
  C5_normalization 8 demoHasher 1 0 [] validCand
    (publicOf (newAccount demoHasher 1 0 validCand)) (by decide)

end Triterm
namespace Triterm

/-- C9: whenever the lookup returns a record, the record satisfies at
least one of the two case-insensitive field comparisons that follow, a
conflict is always classified, and the control path that would create an
account despite a found record is unreachable: a successful provisioning
implies the lookup found nothing. -/
theorem C9_found_record_always_classified (minLen : Nat) (hasher : Str → Str)
    (newId now : Nat) (store : List Account) (c : Candidate) (u : Account)
    (hf : findExisting store (lowerStr c.email) (lowerStr c.username) = some u) :
    (lowerStr u.email = lowerStr c.email ∨
      lowerStr u.username = lowerStr c.username) ∧
    conflictOf store c ≠ none ∧
    ∀ p, (provision minLen hasher newId now store c).1 ≠ Except.ok p := by
  have hor : lowerStr u.email = lowerStr c.email ∨
      lowerStr u.username = lowerStr c.username := by
    rcases findExisting_matches store (lowerStr c.email) (lowerStr c.username) u hf
      with h | h
    · exact Or.inl (by rw [h, lowerStr_idem])
    · exact Or.inr (by rw [h, lowerStr_idem])
  have hcn : conflictOf store c ≠ none := by
    unfold conflictOf
    by_cases he : lowerStr u.email = lowerStr c.email
    · simp [hf, he]
    · simp [hf, he, hor.resolve_left he]
  refine ⟨hor, hcn, ?_⟩
  intro p hp
  cases hv : validate minLen c with
  | some e => simp [provision, hv] at hp
  | none =>
    cases hc : conflictOf store c with
    | some e => simp [provision, hv, hc] at hp
    | none => exact hcn hc

/-- C9 witness: a store holding an account that the lookup finds. -/
theorem C9_found_record_always_classified_witness :
    (lowerStr acct0.email = lowerStr validCand.email ∨
      lowerStr acct0.username = lowerStr validCand.username) ∧
    conflictOf [acct0] validCand ≠ none ∧
    ∀ p, (provision 8 demoHasher 1 0 [acct0] validCand).1 ≠ Except.ok p :=
  C9_found_record_always_classified 8 demoHasher 1 0 [acct0] validCand acct0
    (by decide)

/-- C6 counterexample: a candidate whose email and username both collide
case-insensitively with existing accounts — the username with the first
account of the store, the email with the second — for which provisioning
reports the username conflict, not the email conflict the claim
predicts. -/
theorem C6_counterexample :
    lowerStr c6Cand.email ∈ c6Store.map (fun a => lowerStr a.email) ∧
    lowerStr c6Cand.username ∈ c6Store.map (fun a => lowerStr a.username) ∧
    validate 8 c6Cand = none ∧
    (provision 8 demoHasher 2 0 c6Store c6Cand).1 =
      .error .usernameTaken ∧
    PError.usernameTaken ≠ PError.emailTaken := by decide

/-- C6 amended: when the single record the lookup returns itself
collides on both fields — in particular when email and username collide
with the same existing account — the classification prefers the email
conflict. -/
theorem C6_amended_email_preferred (minLen : Nat) (hasher : Str → Str)
    (newId now : Nat) (store : List Account) (c : Candidate) (u : Account)
    (hf : findExisting store (lowerStr c.email) (lowerStr c.username) = some u)
    (hv : validate minLen c = none)
    (he : lowerStr u.email = lowerStr c.email)
    (_hu : lowerStr u.username = lowerStr c.username) :
    (provision minLen hasher newId now store c).1 = .error .emailTaken := by
  have hc : conflictOf store c = some .emailTaken := by
    unfold conflictOf
    simp [hf, he]
  simp [provision, hv, hc]

/-- C6 amended witness: an account colliding on both fields. -/
theorem C6_amended_email_preferred_witness :
    (provision 8 demoHasher 1 0 [acct0] validCand).1 = .error .emailTaken :=
  C6_amended_email_preferred 8 demoHasher 1 0 [acct0] validCand acct0
    (by decide) (by decide) (by decide) (by decide)

end Triterm
namespace Triterm

/-- C7 counterexample: the JS script's error mapping has no P2021
branch, so an absent schema falls to the generic catch-all instead of
the SchemaMissing kind the claim asserts for both scripts. -/
theorem C7_counterexample :
    jsMapStoreError codeP2021 = .unknownStoreError ∧
    PError.unknownStoreError ≠ PError.schemaMissing := by decide

/-- C7 amended: the TS script translates P2002 into a conflict kind,
P1001 into StoreUnavailable, P2021 into SchemaMissing and anything else
into the catch-all; the JS script translates P2002 and P1001 the same
way but leaves P2021 to the generic catch-all. -/
theorem C7_amended_store_error_mapping :
    isConflict (tsMapStoreError codeP2002) = true ∧
    tsMapStoreError codeP1001 = .storeUnavailable ∧
    tsMapStoreError codeP2021 = .schemaMissing ∧
    tsMapStoreError codeOther = .unknownStoreError ∧
    isConflict (jsMapStoreError codeP2002) = true ∧
    jsMapStoreError codeP1001 = .storeUnavailable ∧
    jsMapStoreError codeP2021 = .unknownStoreError ∧
    jsMapStoreError codeOther = .unknownStoreError := by decide

/-- C8: on candidates with non-empty email, username and secret whose
secret length is at most 7 or at least 12, the two scripts' validation
pipelines agree: the JS validation (falsy check, then the shared rules
with minimum length 12) gives exactly the outcome of the TS validation
(the shared rules with minimum length 8). -/
theorem C8_cross_script_agreement (c : Candidate)
    (he : c.email ≠ []) (hu : c.username ≠ []) (hs : c.secret ≠ [])
    (hl : c.secret.length ≤ 7 ∨ 12 ≤ c.secret.length) :
    jsValidateFull c = (validate 8 c).map JsVError.rule := by
  have hpre : (c.email.isEmpty || c.username.isEmpty || c.secret.isEmpty) = false := by
    simp only [Bool.or_eq_false_iff, List.isEmpty_eq_false]
    exact ⟨⟨he, hu⟩, hs⟩
  have hv : validate 12 c = validate 8 c := by
    unfold validate
    rcases hl with h | h
    · have h8 : decide (c.secret.length < 8) = true := by
        simp only [decide_eq_true_eq]; omega
      have h12 : decide (c.secret.length < 12) = true := by
        simp only [decide_eq_true_eq]; omega
      rw [h8, h12]
    · have h8 : decide (c.secret.length < 8) = false := by
        simp only [decide_eq_false_iff_not]; omega
      have h12 : decide (c.secret.length < 12) = false := by
        simp only [decide_eq_false_iff_not]; omega
      rw [h8, h12]
  simp [jsValidateFull, hpre, hv]

/-- C8 witness: a valid candidate with a 12-character secret. -/
theorem C8_cross_script_agreement_witness :
    jsValidateFull c8Cand = (validate 8 c8Cand).map JsVError.rule :=
  C8_cross_script_agreement c8Cand (by decide) (by decide) (by decide)
    (by decide)

/-- C10: with fewer than three positional arguments, either script's
entry point reports the missing-arguments usage outcome with exit status
one and an empty trace — no validation, no store lookup, no hashing and
no account creation has happened. -/
theorem C10_missing_args (minLen : Nat) (hasher : Str → Str) (newId now : Nat)
    (store : List Account) (args : List Str) (h : args.length < 3) :
    entry minLen hasher newId now store args = (.missingArgs, []) ∧
    exitCodeOf .missingArgs = 1 ∧
    Event.validation ∉ ([] : List Event) ∧
    Event.lookup ∉ ([] : List Event) ∧
    Event.hashSecret ∉ ([] : List Event) ∧
    Event.create ∉ ([] : List Event) := by
  refine ⟨?_, rfl, by decide, by decide, by decide, by decide⟩
  unfold entry
  rw [if_pos h]

/-- C10 witness: a two-argument invocation. -/
theorem C10_missing_args_witness :
    entry 8 demoHasher 1 0 [] twoArgs = (.missingArgs, []) ∧
    exitCodeOf .missingArgs = 1 ∧
    Event.validation ∉ ([] : List Event) ∧
    Event.lookup ∉ ([] : List Event) ∧
    Event.hashSecret ∉ ([] : List Event) ∧
    Event.create ∉ ([] : List Event) :=
  C10_missing_args 8 demoHasher 1 0 [] twoArgs (by decide)

/-- C1: the code violates the claim.  The script itself stores the
username with its original casing, yet the lookup compares the stored
username for exact equality against the lowercased candidate username;
so after the script provisions username `Admin`, provisioning username
`admin` finds no record, reports no conflict, and creates a second
account whose username is case-insensitively equal to the first — the
case-insensitive uniqueness invariant does not survive. -/
theorem C1_cased_username_duplicate :
    (provision 8 demoHasher 0 0 [] c1CandA).1 =
      .ok (publicOf (newAccount demoHasher 0 0 c1CandA)) ∧
    c1Store = [newAccount demoHasher 0 0 c1CandA] ∧
    lowerStr c1CandB.username =
      lowerStr ((newAccount demoHasher 0 0 c1CandA).username) ∧
    c1CandB.email ≠ c1CandA.email ∧
    (provision 8 demoHasher 1 0 c1Store c1CandB).1 =
      .ok (publicOf (newAccount demoHasher 1 0 c1CandB)) ∧
    (provision 8 demoHasher 1 0 c1Store c1CandB).2.1.map
        (fun a => lowerStr a.username) =
      [['a', 'd', 'm', 'i', 'n'], ['a', 'd', 'm', 'i', 'n']] := by decide

end Triterm
